import Mathlib

/-!
Shallow embedding of `src/sample-workspace/src/scenes/demoSceneScript.ts`
(class `DemoSceneScript`), the UI bridge wiring a Sumerian avatar host, a
Lex chatbot client and the page DOM.

Two complementary views of the script are embedded:

* an *effect trace* view: each method of the script that only issues calls
  into its collaborators (DOM bindings, `lex.listenTo` registrations,
  `showUiScreen`, `enableMicInput`, speech playback, recording commands,
  `console.log`, `alert`) is a `List Effect`, in source order.  The
  asynchronous outcome of `this.lex.enableMicInput()` is a parameter
  (`MicOutcome`), since the SDK is an external collaborator.
* a *DOM state* view for the handlers that mutate
  `this.messageContainerEl`/`this.transcriptTextEl`: `classList` is a
  DOMTokenList (ordered, duplicate-free on insertion), `innerText` a string.
-/

namespace DemoSceneScript

/-- The script methods / closures that initialization binds to DOM events or
registers as Lex event listeners. -/
inductive ActionName where
  | startMainExperience
  | acquireMicrophoneAccess
  | talkButtonMouseDown
  | talkButtonMouseUp
  | handleLexResponse
  | hideUserMessages
  | displayProcessingMessage
deriving DecidableEq

/-- One observable call issued by the script into its collaborators. -/
inductive Effect where
  | configureAws
  | alert (msg : String)
  | bindHandler (elemId : String) (event : String) (action : ActionName)
  | listenTo (event : String) (handler : ActionName)
  | showScreen (name : String)
  | enableMicInputAttempt
  | consoleLog (msg : String)
  | play (text : String)
  | beginVoiceRecording
  | endVoiceRecording
deriving DecidableEq

/-- Outcome of the awaited `this.lex.enableMicInput()` call: it either
resolves, or rejects with an error whose `message` is a string. -/
inductive MicOutcome where
  | success
  | failure (message : String)
deriving DecidableEq

/-! ## DOM primitives -/

/-- Models `DOMTokenList.add`: appends the token unless already present. -/
def classListAdd (c : String) (l : List String) : List String :=
  if c ∈ l then l else l ++ [c]

/-- Models `DOMTokenList.remove`: drops every occurrence of the token. -/
def classListRemove (c : String) (l : List String) : List String :=
  l.filter (fun x => x ≠ c)

/-- The DOM state the script mutates: the class list of
`userMessageContainer` and the `innerText` of `transcriptText`. -/
structure DomState where
  messageContainerClasses : List String
  transcriptText : String
deriving DecidableEq

/-- A Lex response, as consumed by `handleLexResponse`
(`{ inputTranscript, message }`). -/
structure LexResponse where
  inputTranscript : String
  message : String
deriving DecidableEq

/-! ## The DOM-mutating handlers (source lines 154-177) -/

/-- Method `displaySpeechInputTranscript(text)`: sets
`transcriptTextEl.innerText` to the text wrapped in curly quotes, then adds
the `showingMessage` class to the message container. -/
def displaySpeechInputTranscript (text : String) (s : DomState) : DomState :=
  { messageContainerClasses := classListAdd "showingMessage" s.messageContainerClasses,
    transcriptText := "“" ++ text ++ "”" }

/-- Method `handleLexResponse(response)`: removes the `processing` class, displays
the input transcript, and has the host speak `response.message`.  The second
component collects the strings passed to
`hostNode.host.TextToSpeechFeature.play`. -/
def handleLexResponse (r : LexResponse) (s : DomState) : DomState × List String :=
  let s1 : DomState :=
    { s with messageContainerClasses := classListRemove "processing" s.messageContainerClasses }
  let s2 := displaySpeechInputTranscript r.inputTranscript s1
  (s2, [r.message])

/-- Method `hideUserMessages()`: removes the `showingMessage` class. -/
def hideUserMessages (s : DomState) : DomState :=
  { s with messageContainerClasses := classListRemove "showingMessage" s.messageContainerClasses }

/-- Method `displayProcessingMessage()`: adds the `processing` class. -/
def displayProcessingMessage (s : DomState) : DomState :=
  { s with messageContainerClasses := classListAdd "processing" s.messageContainerClasses }

/-! ## The handlers run against a possibly-null element

`this.messageContainerEl` is assigned from
`document.getElementById('userMessageContainer')`, which is `null` when the
document has no such element; member access on `null` throws a `TypeError`.
Here an element is represented by its class list. -/

/-- Models `document.getElementById`: first element of the document with the id. -/
def getElementById (doc : List (String × List String)) (id : String) :
    Option (List String) :=
  (doc.find? (fun p => p.1 = id)).map (fun p => p.2)

/-- Is an `Except` a non-throwing result? -/
def exceptIsOk : Except String (List String) → Bool
  | Except.ok _ => true
  | Except.error _ => false

/-- Method `hideUserMessages` run against the stored element reference: throws a
`TypeError` when the reference is null, otherwise returns the updated class
list (the handler itself returns no value). -/
def hideUserMessagesRun (messageContainerEl : Option (List String)) :
    Except String (List String) :=
  match messageContainerEl with
  | none => Except.error "TypeError: this.messageContainerEl is null"
  | some cs => Except.ok (classListRemove "showingMessage" cs)

/-- Method `displayProcessingMessage` run against the stored element reference. -/
def displayProcessingMessageRun (messageContainerEl : Option (List String)) :
    Except String (List String) :=
  match messageContainerEl with
  | none => Except.error "TypeError: this.messageContainerEl is null"
  | some cs => Except.ok (classListAdd "processing" cs)

/-! ## Initialization as effect traces (source lines 59-132, 185-218) -/

/-- The blocking notice `initUi` raises inside the editor preview. -/
def alertText : String :=
  "Due to limitations of the Babylon.JS Editor, this demo can not be run from the Preview panel. Instead, use any of the options from the \"Run\" menu."

/-- Method `initUi()`: when `window.location.host` is empty (editor preview), alert
and return; otherwise bind the `startButton` and `enableMicButton` click
handlers. -/
def initUi (locationHost : String) : List Effect :=
  if locationHost = "" then
    [Effect.alert alertText]
  else
    [Effect.bindHandler "startButton" "click" ActionName.startMainExperience,
     Effect.bindHandler "enableMicButton" "click" ActionName.acquireMicrophoneAccess]

/-- Method `initConversationManagement()`: binds the talk-button mouse handlers and
registers the three Lex event listeners. -/
def initConversationManagement : List Effect :=
  [Effect.bindHandler "talkButton" "mousedown" ActionName.talkButtonMouseDown,
   Effect.bindHandler "talkButton" "mouseup" ActionName.talkButtonMouseUp,
   Effect.listenTo "lexResponseReady" ActionName.handleLexResponse,
   Effect.listenTo "recordBegin" ActionName.hideUserMessages,
   Effect.listenTo "recordEnd" ActionName.displayProcessingMessage]

/-- Method `initChatbot()`: configures AWS, builds the LexFeature, registers a
`lexResponseReady` listener, then calls `initConversationManagement()`. -/
def initChatbot : List Effect :=
  [Effect.configureAws,
   Effect.listenTo "lexResponseReady" ActionName.handleLexResponse] ++
  initConversationManagement

/-- Method `acquireMicrophoneAccess()`: shows `micInitScreen`, awaits
`enableMicInput()`, then branches on success / `Permission dismissed` /
other failure. -/
def acquireMicrophoneAccess (o : MicOutcome) : List Effect :=
  [Effect.showScreen "micInitScreen", Effect.enableMicInputAttempt] ++
  match o with
  | MicOutcome.success =>
      [Effect.consoleLog "Microphone ready", Effect.showScreen "startScreen"]
  | MicOutcome.failure msg =>
      if msg = "Permission dismissed" then
        [Effect.showScreen "micPermissionDismissedScreen"]
      else
        [Effect.showScreen "micDisabledScreen"]

/-- Method `onStart()` body (after the 5 s timer):
`initChatbot(); initUi(); acquireMicrophoneAccess();` in that order. -/
def onStartSequence (locationHost : String) (o : MicOutcome) : List Effect :=
  initChatbot ++ initUi locationHost ++ acquireMicrophoneAccess o

/-- The fixed greeting spoken by `startMainExperience()`. -/
def greetingText : String :=
  "Hello. How can I help?  You can say things like, \"I'd like to rent a car,\" or, \"Help me book a hotel\"."

/-- Method `startMainExperience()`: shows the chatbot UI screen and speaks the
greeting. -/
def startMainExperience : List Effect :=
  [Effect.showScreen "chatbotUiScreen", Effect.play greetingText]

/-- The `z` KEYDOWN handler: calls `acquireMicrophoneAccess()`. -/
def keyDownHandler (o : MicOutcome) : List Effect :=
  acquireMicrophoneAccess o

/-- The closure bound to `enableMicButton.onclick`:
`() => this.acquireMicrophoneAccess()`. -/
def enableMicButtonClick (o : MicOutcome) : List Effect :=
  acquireMicrophoneAccess o

/-- The space KEYDOWN handler `talkKeyDownHandler`: empty body. -/
def talkKeyDownHandler : List Effect := []

/-- The space KEYUP handler `talkKeyUpHandler`: only logs. -/
def talkKeyUpHandler : List Effect := [Effect.consoleLog "End listening."]

/-- The closure bound to `talkButton.onmousedown`. -/
def talkButtonMouseDown : List Effect :=
  [Effect.consoleLog "Begin recording", Effect.beginVoiceRecording]

/-- The closure bound to `talkButton.onmouseup`. -/
def talkButtonMouseUp : List Effect :=
  [Effect.consoleLog "End recording", Effect.endVoiceRecording]

/-! ## Observations on traces -/

/-- Is the effect a microphone-access attempt (`enableMicInput` call)? -/
def isMicAttempt : Effect → Bool
  | Effect.enableMicInputAttempt => true
  | _ => false

/-- Is the effect a DOM event-handler binding? -/
def isDomBinding : Effect → Bool
  | Effect.bindHandler _ _ _ => true
  | _ => false

/-- Is the effect a DOM event-handler binding on a given element? -/
def isBindingOf (elemId : String) : Effect → Bool
  | Effect.bindHandler e _ _ => e = elemId
  | _ => false

/-- Is the effect a blocking `alert`? -/
def isAlertEffect : Effect → Bool
  | Effect.alert _ => true
  | _ => false

/-- The screen names shown by a trace, in order. -/
def screensShown (t : List Effect) : List String :=
  t.filterMap (fun e => match e with
    | Effect.showScreen n => some n
    | _ => none)

/-- The screen left visible after the trace (screen switching is
exclusive: the last `showUiScreen` wins). -/
def lastScreen (t : List Effect) : Option String :=
  (screensShown t).getLast?

/-- The strings a trace passes to `TextToSpeechFeature.play`. -/
def playsOf (t : List Effect) : List String :=
  t.filterMap (fun e => match e with
    | Effect.play s => some s
    | _ => none)

/-- The handlers a trace registers for a Lex event, in registration order. -/
def listenersFor (t : List Effect) (ev : String) : List ActionName :=
  t.filterMap (fun e => match e with
    | Effect.listenTo e2 h => if e2 = ev then some h else none
    | _ => none)

/-- The (element, DOM event) pairs a trace binds to a given action. -/
def bindingsWithAction (t : List Effect) (a : ActionName) :
    List (String × String) :=
  t.filterMap (fun e => match e with
    | Effect.bindHandler el ev a2 => if a2 = a then some (el, ev) else none
    | _ => none)

/-- Run one registered Lex-response listener on the DOM state, collecting
played strings. -/
def runLexHandler (h : ActionName) (r : LexResponse) (s : DomState) :
    DomState × List String :=
  match h with
  | ActionName.handleLexResponse => handleLexResponse r s
  | ActionName.hideUserMessages => (hideUserMessages s, [])
  | ActionName.displayProcessingMessage => (displayProcessingMessage s, [])
  | _ => (s, [])

/-- Deliver one Lex event: every listener registered for it by the trace
runs, in registration order. -/
def dispatchEvent (t : List Effect) (ev : String) (r : LexResponse)
    (s : DomState) : DomState × List String :=
  (listenersFor t ev).foldl
    (fun acc h =>
      let out := runLexHandler h r acc.1
      (out.1, acc.2 ++ out.2))
    (s, [])

end DemoSceneScript

namespace DemoSceneScript

/-! ## DOMTokenList lemmas -/

theorem classListRemove_not_mem (c : String) (l : List String) :
    c ∉ classListRemove c l := by
  simp [classListRemove]

theorem classListRemove_eq_self (c : String) (l : List String) (h : c ∉ l) :
    classListRemove c l = l := by
  unfold classListRemove
  refine List.filter_eq_self.mpr ?_
  intro x hx
  have hxc : x ≠ c := fun e => h (e ▸ hx)
  simpa using hxc

theorem mem_classListAdd_self (c : String) (l : List String) :
    c ∈ classListAdd c l := by
  by_cases h : c ∈ l
  · simp [classListAdd, h]
  · simp [classListAdd, h]

theorem classListAdd_eq_self (c : String) (l : List String) (h : c ∈ l) :
    classListAdd c l = l := by
  simp [classListAdd, h]

theorem mem_classListAdd_of_ne (c d : String) (l : List String) (hne : c ≠ d) :
    c ∈ classListAdd d l ↔ c ∈ l := by
  by_cases h : d ∈ l
  · simp [classListAdd, h]
  · simp [classListAdd, h, hne]

theorem not_mem_classListAdd (c d : String) (l : List String) (hne : c ≠ d)
    (h : c ∉ l) : c ∉ classListAdd d l := by
  rw [mem_classListAdd_of_ne c d l hne]
  exact h

/-! ## Claims about the DOM-mutating handlers -/

/-- C3: for every chatbot response, `handleLexResponse` clears the
`processing` class from the message container, sets the transcript element
text to the input transcript wrapped in curly quotes, adds the
`showingMessage` class, and plays exactly the response message; in
particular for `{inputTranscript := "book a hotel", message := "Sure, when
would you like to check in?"}` the transcript reads `“book a hotel”` and
playback receives exactly that message. -/
theorem handleLexResponse_spec (r : LexResponse) (s : DomState) :
    "processing" ∉ (handleLexResponse r s).1.messageContainerClasses ∧
    (handleLexResponse r s).1.transcriptText = "“" ++ r.inputTranscript ++ "”" ∧
    "showingMessage" ∈ (handleLexResponse r s).1.messageContainerClasses ∧
    (handleLexResponse r s).2 = [r.message] ∧
    (handleLexResponse
      { inputTranscript := "book a hotel",
        message := "Sure, when would you like to check in?" } s).1.transcriptText
      = "“book a hotel”" ∧
    (handleLexResponse
      { inputTranscript := "book a hotel",
        message := "Sure, when would you like to check in?" } s).2
      = ["Sure, when would you like to check in?"] := by
  refine ⟨?_, rfl, ?_, rfl, rfl, rfl⟩
  · show "processing" ∉
      classListAdd "showingMessage"
        (classListRemove "processing" s.messageContainerClasses)
    exact not_mem_classListAdd _ _ _ (by decide) (classListRemove_not_mem _ _)
  · exact mem_classListAdd_self _ _

/-- C5: a record-begin event (handled by `hideUserMessages`) followed by a
record-end event (handled by `displayProcessingMessage`) first removes the
`showingMessage` class, then adds the `processing` class, and neither
handler touches the transcript text. -/
theorem recordBegin_then_recordEnd_spec (s : DomState) :
    "showingMessage" ∉ (hideUserMessages s).messageContainerClasses ∧
    (hideUserMessages s).transcriptText = s.transcriptText ∧
    "processing" ∈
      (displayProcessingMessage (hideUserMessages s)).messageContainerClasses ∧
    "showingMessage" ∉
      (displayProcessingMessage (hideUserMessages s)).messageContainerClasses ∧
    (displayProcessingMessage (hideUserMessages s)).transcriptText
      = s.transcriptText := by
  refine ⟨classListRemove_not_mem _ _, rfl, mem_classListAdd_self _ _, ?_, rfl⟩
  exact not_mem_classListAdd _ _ _ (by decide) (classListRemove_not_mem _ _)

/-- C6: whenever the document provides the required `userMessageContainer`
element (so that the stored element reference is non-null, as is the case in
every state in which the Lex backend can deliver `recordBegin`/`recordEnd`,
since listener registration and the element lookup complete in the same
synchronous initialization step), the record-begin and record-end handlers
never throw: both runs return `Except.ok`. -/
theorem recordHandlers_never_throw (doc : List (String × List String))
    (h : (getElementById doc "userMessageContainer").isSome = true) :
    exceptIsOk (hideUserMessagesRun (getElementById doc "userMessageContainer"))
      = true ∧
    exceptIsOk
      (displayProcessingMessageRun (getElementById doc "userMessageContainer"))
      = true := by
  rcases hm : getElementById doc "userMessageContainer" with _ | cs
  · rw [hm] at h
    simp at h
  · exact ⟨rfl, rfl⟩

/-- C6 witness: a concrete document carrying the `userMessageContainer`
element, on which both handlers run without throwing. -/
theorem recordHandlers_never_throw_witness :
    exceptIsOk (hideUserMessagesRun
      (getElementById [("userMessageContainer", ["showingMessage"])]
        "userMessageContainer")) = true ∧
    exceptIsOk (displayProcessingMessageRun
      (getElementById [("userMessageContainer", ["showingMessage"])]
        "userMessageContainer")) = true :=
  recordHandlers_never_throw [("userMessageContainer", ["showingMessage"])]
    (by decide)

/-- C9: `handleLexResponse` is idempotent on the DOM state: running it twice
with the same response leaves the same message-container classes and
transcript text as running it once. -/
theorem handleLexResponse_idempotent (r : LexResponse) (s : DomState) :
    (handleLexResponse r (handleLexResponse r s).1).1
      = (handleLexResponse r s).1 := by
  have h1 : ("processing" : String) ∉
      classListAdd "showingMessage"
        (classListRemove "processing" s.messageContainerClasses) :=
    not_mem_classListAdd _ _ _ (by decide) (classListRemove_not_mem _ _)
  show ({ messageContainerClasses :=
            classListAdd "showingMessage"
              (classListRemove "processing"
                (classListAdd "showingMessage"
                  (classListRemove "processing" s.messageContainerClasses))),
          transcriptText := "“" ++ r.inputTranscript ++ "”" } : DomState)
      = { messageContainerClasses :=
            classListAdd "showingMessage"
              (classListRemove "processing" s.messageContainerClasses),
          transcriptText := "“" ++ r.inputTranscript ++ "”" }
  rw [classListRemove_eq_self _ _ h1,
      classListAdd_eq_self _ _ (mem_classListAdd_self _ _)]

end DemoSceneScript

namespace DemoSceneScript

/-! ## Case-exhaustion lemmas for the trace model -/

theorem onStartSequence_eq (h : String) (o : MicOutcome) :
    onStartSequence h o
      = initChatbot ++ initUi h ++ acquireMicrophoneAccess o := rfl

theorem initUi_cases (h : String) :
    initUi h = initUi "" ∨ initUi h = initUi "host" := by
  by_cases hh : h = ""
  · exact Or.inl (by rw [hh])
  · refine Or.inr ?_
    unfold initUi
    rw [if_neg hh, if_neg (by decide : ¬(("host" : String) = ""))]

theorem acquire_cases (o : MicOutcome) :
    acquireMicrophoneAccess o = acquireMicrophoneAccess MicOutcome.success ∨
    acquireMicrophoneAccess o
      = acquireMicrophoneAccess (MicOutcome.failure "Permission dismissed") ∨
    acquireMicrophoneAccess o
      = acquireMicrophoneAccess (MicOutcome.failure "other") := by
  cases o with
  | success => exact Or.inl rfl
  | failure m =>
    by_cases hm : m = "Permission dismissed"
    · exact Or.inr (Or.inl (by rw [hm]))
    · refine Or.inr (Or.inr ?_)
      simp only [acquireMicrophoneAccess]
      rw [if_neg hm,
          if_neg (by decide : ¬(("other" : String) = "Permission dismissed"))]

theorem listenersFor_append (t1 t2 : List Effect) (ev : String) :
    listenersFor (t1 ++ t2) ev = listenersFor t1 ev ++ listenersFor t2 ev := by
  unfold listenersFor
  exact List.filterMap_append t1 t2 _

theorem listenersFor_initUi (h : String) (ev : String) :
    listenersFor (initUi h) ev = [] := by
  rcases initUi_cases h with hu | hu <;> rw [hu] <;> rfl

theorem listenersFor_acquire (o : MicOutcome) (ev : String) :
    listenersFor (acquireMicrophoneAccess o) ev = [] := by
  rcases acquire_cases o with ha | ha | ha <;> rw [ha] <;> rfl

theorem bindingsWithAction_append (t1 t2 : List Effect) (a : ActionName) :
    bindingsWithAction (t1 ++ t2) a
      = bindingsWithAction t1 a ++ bindingsWithAction t2 a := by
  unfold bindingsWithAction
  exact List.filterMap_append t1 t2 _

/-! ## Claims about initialization and the keyboard / button handlers -/

/-- C1 counterexample: running the initialization sequence in the embedded
preview context (`window.location.host = ""`) does NOT perform zero DOM
event-handler bindings and zero microphone-access attempts: the talk-button
handlers are bound by `initConversationManagement` (which runs before the
viewport check in `initUi`) and `acquireMicrophoneAccess` still runs. -/
theorem initInPreview_counterexample :
    ¬ ((onStartSequence "" MicOutcome.success).countP isDomBinding = 0 ∧
       (onStartSequence "" MicOutcome.success).countP isMicAttempt = 0) := by
  decide

/-- C1 amended: in the embedded preview context the initialization skips the
start-button and enable-mic-button bindings and presents the blocking
notice, but it still binds the two talk-button handlers and still makes
exactly one microphone-access attempt. -/
theorem initInPreview_partial_skip (o : MicOutcome) :
    (onStartSequence "" o).countP (isBindingOf "startButton") = 0 ∧
    (onStartSequence "" o).countP (isBindingOf "enableMicButton") = 0 ∧
    (onStartSequence "" o).countP isAlertEffect = 1 ∧
    (onStartSequence "" o).countP (isBindingOf "talkButton") = 2 ∧
    (onStartSequence "" o).countP isMicAttempt = 1 := by
  rw [onStartSequence_eq]
  rcases acquire_cases o with ha | ha | ha <;> rw [ha] <;> decide

/-- C2: `acquireMicrophoneAccess` always leaves some screen visible (never an
unhandled exception): `startScreen` when `enableMicInput` succeeds,
`micPermissionDismissedScreen` when it fails with message exactly
`Permission dismissed`, and `micDisabledScreen` on any other failure. -/
theorem acquireMicrophoneAccess_screens (o : MicOutcome) :
    (o = MicOutcome.success →
      lastScreen (acquireMicrophoneAccess o) = some "startScreen") ∧
    (∀ m, o = MicOutcome.failure m → m = "Permission dismissed" →
      lastScreen (acquireMicrophoneAccess o)
        = some "micPermissionDismissedScreen") ∧
    (∀ m, o = MicOutcome.failure m → m ≠ "Permission dismissed" →
      lastScreen (acquireMicrophoneAccess o) = some "micDisabledScreen") ∧
    (lastScreen (acquireMicrophoneAccess o)).isSome = true := by
  cases o with
  | success =>
    refine ⟨fun _ => by decide, ?_, ?_, by decide⟩
    · intro m hm
      exact absurd hm (by simp)
    · intro m hm
      exact absurd hm (by simp)
  | failure m =>
    refine ⟨fun hs => (by cases hs), ?_, ?_, ?_⟩
    · intro m2 he hm
      injection he with he2
      subst he2
      subst hm
      decide
    · intro m2 he hm
      injection he with he2
      subst he2
      simp only [acquireMicrophoneAccess]
      rw [if_neg hm]
      decide
    · by_cases hm : m = "Permission dismissed"
      · subst hm
        decide
      · simp only [acquireMicrophoneAccess]
        rw [if_neg hm]
        decide

/-- C2 witness: the three branches at concrete outcomes. -/
theorem acquireMicrophoneAccess_screens_witness :
    lastScreen (acquireMicrophoneAccess MicOutcome.success)
      = some "startScreen" ∧
    lastScreen (acquireMicrophoneAccess
      (MicOutcome.failure "Permission dismissed"))
      = some "micPermissionDismissedScreen" ∧
    lastScreen (acquireMicrophoneAccess
      (MicOutcome.failure "Permission denied"))
      = some "micDisabledScreen" :=
  ⟨(acquireMicrophoneAccess_screens MicOutcome.success).1 rfl,
   (acquireMicrophoneAccess_screens
      (MicOutcome.failure "Permission dismissed")).2.1
     "Permission dismissed" rfl rfl,
   (acquireMicrophoneAccess_screens
      (MicOutcome.failure "Permission denied")).2.2.1
     "Permission denied" rfl (by decide)⟩

/-- C4: initialization registers the `lexResponseReady` listener twice (once
in `initChatbot`, once in `initConversationManagement`), so delivering one
`lexResponseReady` event runs `handleLexResponse` twice and plays the
response message twice. -/
theorem lexResponseReady_listener_registered_twice (h : String)
    (o : MicOutcome) (r : LexResponse) (s : DomState) :
    listenersFor (onStartSequence h o) "lexResponseReady"
      = [ActionName.handleLexResponse, ActionName.handleLexResponse] ∧
    (dispatchEvent (onStartSequence h o) "lexResponseReady" r s).2
      = [r.message, r.message] := by
  have hl : listenersFor (onStartSequence h o) "lexResponseReady"
      = [ActionName.handleLexResponse, ActionName.handleLexResponse] := by
    rw [onStartSequence_eq, listenersFor_append, listenersFor_append,
        listenersFor_initUi, listenersFor_acquire]
    rfl
  refine ⟨hl, ?_⟩
  unfold dispatchEvent
  rw [hl]
  simp [runLexHandler, handleLexResponse]

/-- C7: the `z` key handler and the enable-mic button click handler are the
same behavior — both run `acquireMicrophoneAccess`, with exactly one
microphone-access attempt per press / click. -/
theorem shortcutKey_equiv_enableMicClick (o : MicOutcome) :
    keyDownHandler o = enableMicButtonClick o ∧
    (keyDownHandler o).countP isMicAttempt = 1 ∧
    (enableMicButtonClick o).countP isMicAttempt = 1 := by
  refine ⟨rfl, ?_, ?_⟩ <;>
    · show (acquireMicrophoneAccess o).countP isMicAttempt = 1
      rcases acquire_cases o with ha | ha | ha <;> rw [ha] <;> decide

/-- C8 counterexample: pressing space does not trigger voice recording start
and releasing it does not trigger voice recording stop — the space keydown
handler issues no `beginVoiceRecording` call and the space keyup handler
issues no `endVoiceRecording` call. -/
theorem spaceKey_stub_counterexample :
    ¬ (Effect.beginVoiceRecording ∈ talkKeyDownHandler ∧
       Effect.endVoiceRecording ∈ talkKeyUpHandler) := by
  decide

/-- C8 amended: the space-key handlers exist but are stubs — keydown has an
empty body and keyup only logs; neither calls into voice recording — whereas
the talk-button mouse-down handler calls `beginVoiceRecording` and the
mouse-up handler calls `endVoiceRecording`. -/
theorem spaceKey_handlers_are_stubs :
    talkKeyDownHandler = [] ∧
    talkKeyUpHandler = [Effect.consoleLog "End listening."] ∧
    Effect.beginVoiceRecording ∉ talkKeyDownHandler ∧
    Effect.endVoiceRecording ∉ talkKeyUpHandler ∧
    Effect.beginVoiceRecording ∈ talkButtonMouseDown ∧
    Effect.endVoiceRecording ∈ talkButtonMouseUp := by
  decide

/-- C10: `startMainExperience` shows exactly the `chatbotUiScreen` screen and
plays exactly the fixed greeting (two effects, nothing else); initialization
binds it only to the start-button click (and not at all in the preview
context), and never invokes it itself. -/
theorem startMainExperience_spec (h : String) (o : MicOutcome) :
    screensShown startMainExperience = ["chatbotUiScreen"] ∧
    playsOf startMainExperience = [greetingText] ∧
    startMainExperience.length = 2 ∧
    bindingsWithAction (onStartSequence h o) ActionName.startMainExperience
      = (if h = "" then [] else [("startButton", "click")]) ∧
    Effect.showScreen "chatbotUiScreen" ∉ onStartSequence h o ∧
    Effect.play greetingText ∉ onStartSequence h o := by
  refine ⟨rfl, rfl, rfl, ?_, ?_, ?_⟩
  · rw [onStartSequence_eq, bindingsWithAction_append, bindingsWithAction_append]
    by_cases hh : h = ""
    · rw [if_pos hh, hh]
      rcases acquire_cases o with ha | ha | ha <;> rw [ha] <;> decide
    · rw [if_neg hh]
      have hu : initUi h = initUi "host" := by
        unfold initUi
        rw [if_neg hh, if_neg (by decide : ¬(("host" : String) = ""))]
      rw [hu]
      rcases acquire_cases o with ha | ha | ha <;> rw [ha] <;> decide
  · rw [onStartSequence_eq]
    rcases initUi_cases h with hu | hu <;>
      rcases acquire_cases o with ha | ha | ha <;>
        rw [hu, ha] <;> decide
  · rw [onStartSequence_eq]
    rcases initUi_cases h with hu | hu <;>
      rcases acquire_cases o with ha | ha | ha <;>
        rw [hu, ha] <;> decide

end DemoSceneScript
